import Mathlib

/-!
Verification of the QC dashboard application (`app.py`).

The file embeds, as Lean definitions, the data model and the operations of the
application: the static lookup tables and their cascading-dropdown queries, the
single-mode input form, the flag computation against predicted bounds, the
prediction-column search, and the batch CSV round-trip.  External collaborators
(the opaque `predict_new`, the `streamlit` widgets, and the `pandas` CSV
reader/writer) are modelled explicitly; each such model carries a doc comment
saying what it models.
-/

namespace QCApp

/-! ## Values

A Python dict maps field names to heterogeneous values: category selections are
strings, numeric indicators are numbers.  Numbers are modelled as rationals. -/

inductive Value where
  | str (s : String)
  | num (q : ℚ)
deriving DecidableEq

/-- `float(v)`: the numeric reading of a value.  `float()` applied to a
non-numeric category string raises in Python; that case is unreachable in the
flows verified here (the key looked up always holds a number), so it is mapped
to 0. -/
def pyFloat : Value → ℚ
  | .num q => q
  | .str _ => 0

/-- `d.get(k, default)` on a Python dict, the dict being represented as an
association list in insertion order (keys are unique in every dict built by the
app). -/
def dictGet (d : List (String × Value)) (k : String) (default : Value) : Value :=
  ((d.find? (fun p => p.1 == k)).map (·.2)).getD default

/-! ## Targets and features (`app.py` lines 34-42)

The source `FEATURES` dict maps each target to `{"num": [...]}`; the function
below returns that `"num"` list.  `FEATURES[selected]` raises `KeyError` for a
key outside `TARGETS`; the catch-all branch is unreachable in the app. -/

def TARGETS : List String :=
  ["OUTPUT", "INPUT", "NILAI_DITAMBAH", "GAJI_UPAH", "JUMLAH_PEKERJA"]

def FEATURES : String → List String
  | "OUTPUT" => ["JUMLAH_PEKERJA", "HARTA_TETAP", "GAJI_UPAH", "OUTPUT"]
  | "INPUT" => ["JUMLAH_PEKERJA", "HARTA_TETAP", "OUTPUT", "INPUT"]
  | "NILAI_DITAMBAH" => ["OUTPUT", "INPUT", "JUMLAH_PEKERJA", "HARTA_TETAP", "NILAI_DITAMBAH"]
  | "GAJI_UPAH" => ["JUMLAH_PEKERJA", "OUTPUT", "HARTA_TETAP", "GAJI_UPAH"]
  | "JUMLAH_PEKERJA" =>
      ["OUTPUT", "INPUT", "NILAI_DITAMBAH", "GAJI_UPAH", "HARTA_TETAP", "JUMLAH_PEKERJA"]
  | _ => []

/-! ## Lookup tables and cascading-dropdown queries (`app.py` lines 28-29, 68-89)

A pandas DataFrame loaded from a lookup CSV is a list of rows.  The queries all
have the shape `sorted(df[mask][COL].unique())`: select a column under a row
mask, drop duplicates keeping the first occurrence (pandas `unique`), and sort
ascending (Python `sorted`, which on strings is lexicographic by code point,
matching `String`'s linear order). -/

structure HierarchyRow where
  SEKTOR : String
  SUBSEKTOR : String
  MSIC_5D : String
deriving DecidableEq

structure RegionRow where
  NEGERI : String
  DAERAH : String
deriving DecidableEq

/-- pandas `Series.unique`: deduplicate keeping the first occurrence, in
order. -/
def pdUnique {α : Type} [DecidableEq α] : List α → List α
  | [] => []
  | x :: xs => x :: pdUnique (xs.filter (fun y => decide (y ≠ x)))
termination_by l => l.length
decreasing_by
  simp only [List.length_cons]
  exact Nat.lt_succ_of_le (List.length_filter_le _ _)

/-- Python `sorted` on a sequence of strings (ascending lexicographic order). -/
def pySorted (l : List String) : List String :=
  List.insertionSort (· ≤ ·) l

/-- `sektor_list = sorted(df_hierarchy["SEKTOR"].unique())` (line 68). -/
def sektor_list (df_hierarchy : List HierarchyRow) : List String :=
  pySorted (pdUnique (df_hierarchy.map (·.SEKTOR)))

/-- `sub_opts = sorted(df_hierarchy[df_hierarchy["SEKTOR"] == sektor]["SUBSEKTOR"].unique())`
(line 72). -/
def sub_opts (df_hierarchy : List HierarchyRow) (sektor : String) : List String :=
  pySorted (pdUnique ((df_hierarchy.filter (fun r => r.SEKTOR == sektor)).map (·.SUBSEKTOR)))

/-- `msic_opts = sorted(df_hierarchy[(SEKTOR == sektor) & (SUBSEKTOR == subsektor)]["MSIC_5D"].unique())`
(lines 76-79). -/
def msic_opts (df_hierarchy : List HierarchyRow) (sektor subsektor : String) : List String :=
  pySorted (pdUnique ((df_hierarchy.filter
    (fun r => r.SEKTOR == sektor && r.SUBSEKTOR == subsektor)).map (·.MSIC_5D)))

/-- `negeri_list = sorted(df_nd["NEGERI"].unique())` (line 83). -/
def negeri_list (df_nd : List RegionRow) : List String :=
  pySorted (pdUnique (df_nd.map (·.NEGERI)))

/-- `daerah_opts = sorted(df_nd[df_nd["NEGERI"] == negeri]["DAERAH"].unique())` (line 87). -/
def daerah_opts (df_nd : List RegionRow) (negeri : String) : List String :=
  pySorted (pdUnique ((df_nd.filter (fun r => r.NEGERI == negeri)).map (·.DAERAH)))

/-! ### Lemmas about `pdUnique` and `pySorted` -/

theorem mem_pdUnique {α : Type} [DecidableEq α] (a : α) (l : List α) :
    a ∈ pdUnique l ↔ a ∈ l := by
  induction l using pdUnique.induct with
  | case1 => simp [pdUnique]
  | case2 x xs ih =>
    rw [pdUnique]
    by_cases hax : a = x
    · subst hax; simp
    · simp only [List.mem_cons, ih, List.mem_filter, decide_eq_true_eq]
      constructor
      · rintro (h | ⟨h, -⟩)
        · exact Or.inl h
        · exact Or.inr h
      · rintro (h | h)
        · exact Or.inl h
        · exact Or.inr ⟨h, hax⟩

theorem nodup_pdUnique {α : Type} [DecidableEq α] (l : List α) : (pdUnique l).Nodup := by
  induction l using pdUnique.induct with
  | case1 => simp [pdUnique]
  | case2 x xs ih =>
    rw [pdUnique]
    refine List.nodup_cons.mpr ⟨fun hx => ?_, ih⟩
    rw [mem_pdUnique] at hx
    have := (List.mem_filter.mp hx).2
    simp at this

/-- The common shape of every dropdown query: the result is sorted, duplicate
free, and has the same members as the unsorted column selection. -/
theorem pySorted_pdUnique_spec (l : List String) :
    (pySorted (pdUnique l)).Sorted (· ≤ ·) ∧ (pySorted (pdUnique l)).Nodup ∧
    ∀ x, x ∈ pySorted (pdUnique l) ↔ x ∈ l := by
  refine ⟨List.sorted_insertionSort _ _, ?_, fun x => ?_⟩
  · exact ((List.perm_insertionSort _ _).nodup_iff).mpr (nodup_pdUnique l)
  · rw [pySorted, (List.perm_insertionSort _ _).mem_iff, mem_pdUnique]

/-! ## Claim theorems for the Lookup Provider -/

/-- C3: For every sector S, the sub-sector options offered are exactly the
distinct SUBSEKTOR values of hierarchy-table rows whose SEKTOR equals S, sorted
ascending and containing no duplicates; an S matching no rows yields an empty
option list. -/
theorem C3_sub_opts_spec (df_hierarchy : List HierarchyRow) (S : String) :
    (sub_opts df_hierarchy S).Sorted (· ≤ ·) ∧ (sub_opts df_hierarchy S).Nodup ∧
    (∀ x, x ∈ sub_opts df_hierarchy S ↔ ∃ r ∈ df_hierarchy, r.SEKTOR = S ∧ r.SUBSEKTOR = x) ∧
    ((∀ r ∈ df_hierarchy, r.SEKTOR ≠ S) → sub_opts df_hierarchy S = []) := by
  obtain ⟨hs, hn, hm⟩ :=
    pySorted_pdUnique_spec ((df_hierarchy.filter (fun r => r.SEKTOR == S)).map (·.SUBSEKTOR))
  have hmem : ∀ x, x ∈ sub_opts df_hierarchy S ↔
      ∃ r ∈ df_hierarchy, r.SEKTOR = S ∧ r.SUBSEKTOR = x := by
    intro x
    rw [sub_opts, hm x]
    simp only [List.mem_map, List.mem_filter, beq_iff_eq]
    constructor
    · rintro ⟨r, ⟨hr, hS⟩, hx⟩; exact ⟨r, hr, hS, hx⟩
    · rintro ⟨r, hr, hS, hx⟩; exact ⟨r, ⟨hr, hS⟩, hx⟩
  refine ⟨hs, hn, hmem, fun hnone => ?_⟩
  refine List.eq_nil_iff_forall_not_mem.mpr (fun x hx => ?_)
  obtain ⟨r, hr, hS, -⟩ := (hmem x).mp hx
  exact hnone r hr hS

/-- Closed instantiation of `C3_sub_opts_spec` on a concrete hierarchy table. -/
theorem C3_sub_opts_spec_witness :
    (sub_opts [⟨"A", "A1", "01111"⟩, ⟨"A", "A2", "01112"⟩, ⟨"B", "B1", "02222"⟩] "A").Sorted
      (· ≤ ·) ∧
    (sub_opts [⟨"A", "A1", "01111"⟩, ⟨"A", "A2", "01112"⟩, ⟨"B", "B1", "02222"⟩] "A").Nodup ∧
    (∀ x, x ∈ sub_opts [⟨"A", "A1", "01111"⟩, ⟨"A", "A2", "01112"⟩, ⟨"B", "B1", "02222"⟩] "A" ↔
      ∃ r ∈ [HierarchyRow.mk "A" "A1" "01111", ⟨"A", "A2", "01112"⟩, ⟨"B", "B1", "02222"⟩],
        r.SEKTOR = "A" ∧ r.SUBSEKTOR = x) ∧
    ((∀ r ∈ [HierarchyRow.mk "A" "A1" "01111", ⟨"A", "A2", "01112"⟩, ⟨"B", "B1", "02222"⟩],
        r.SEKTOR ≠ "A") →
      sub_opts [⟨"A", "A1", "01111"⟩, ⟨"A", "A2", "01112"⟩, ⟨"B", "B1", "02222"⟩] "A" = []) :=
  C3_sub_opts_spec [⟨"A", "A1", "01111"⟩, ⟨"A", "A2", "01112"⟩, ⟨"B", "B1", "02222"⟩] "A"

/-- C4: For every (sector, sub-sector) pair, the classification-code options
offered are exactly the distinct MSIC_5D values of hierarchy-table rows
matching both the sector and the sub-sector, sorted ascending with no
duplicates. -/
theorem C4_msic_opts_spec (df_hierarchy : List HierarchyRow) (S T : String) :
    (msic_opts df_hierarchy S T).Sorted (· ≤ ·) ∧ (msic_opts df_hierarchy S T).Nodup ∧
    ∀ x, x ∈ msic_opts df_hierarchy S T ↔
      ∃ r ∈ df_hierarchy, r.SEKTOR = S ∧ r.SUBSEKTOR = T ∧ r.MSIC_5D = x := by
  obtain ⟨hs, hn, hm⟩ := pySorted_pdUnique_spec ((df_hierarchy.filter
    (fun r => r.SEKTOR == S && r.SUBSEKTOR == T)).map (·.MSIC_5D))
  refine ⟨hs, hn, fun x => ?_⟩
  rw [msic_opts, hm x]
  simp only [List.mem_map, List.mem_filter, Bool.and_eq_true, beq_iff_eq]
  constructor
  · rintro ⟨r, ⟨hr, hS, hT⟩, hx⟩; exact ⟨r, hr, hS, hT, hx⟩
  · rintro ⟨r, hr, hS, hT, hx⟩; exact ⟨r, ⟨hr, hS, hT⟩, hx⟩

/-- Closed instantiation of `C4_msic_opts_spec` on a concrete hierarchy table. -/
theorem C4_msic_opts_spec_witness :
    (msic_opts [⟨"A", "A1", "01111"⟩, ⟨"A", "A1", "01112"⟩, ⟨"A", "A2", "01113"⟩] "A"
      "A1").Sorted (· ≤ ·) ∧
    (msic_opts [⟨"A", "A1", "01111"⟩, ⟨"A", "A1", "01112"⟩, ⟨"A", "A2", "01113"⟩] "A"
      "A1").Nodup ∧
    ∀ x, x ∈ msic_opts [⟨"A", "A1", "01111"⟩, ⟨"A", "A1", "01112"⟩, ⟨"A", "A2", "01113"⟩] "A"
        "A1" ↔
      ∃ r ∈ [HierarchyRow.mk "A" "A1" "01111", ⟨"A", "A1", "01112"⟩, ⟨"A", "A2", "01113"⟩],
        r.SEKTOR = "A" ∧ r.SUBSEKTOR = "A1" ∧ r.MSIC_5D = x :=
  C4_msic_opts_spec [⟨"A", "A1", "01111"⟩, ⟨"A", "A1", "01112"⟩, ⟨"A", "A2", "01113"⟩] "A" "A1"

/-- C5: Region/district selection mirrors the sector hierarchy: the region
options are exactly the sorted distinct NEGERI values of the region table, and
for every region R the district options are exactly the distinct DAERAH values
of rows with NEGERI = R, sorted ascending with no duplicates. -/
theorem C5_region_district_spec (df_nd : List RegionRow) (R : String) :
    ((negeri_list df_nd).Sorted (· ≤ ·) ∧ (negeri_list df_nd).Nodup ∧
      ∀ x, x ∈ negeri_list df_nd ↔ ∃ r ∈ df_nd, r.NEGERI = x) ∧
    ((daerah_opts df_nd R).Sorted (· ≤ ·) ∧ (daerah_opts df_nd R).Nodup ∧
      ∀ x, x ∈ daerah_opts df_nd R ↔ ∃ r ∈ df_nd, r.NEGERI = R ∧ r.DAERAH = x) := by
  constructor
  · obtain ⟨hs, hn, hm⟩ := pySorted_pdUnique_spec (df_nd.map (·.NEGERI))
    refine ⟨hs, hn, fun x => ?_⟩
    rw [negeri_list, hm x]
    simp [List.mem_map, eq_comm]
  · obtain ⟨hs, hn, hm⟩ :=
      pySorted_pdUnique_spec ((df_nd.filter (fun r => r.NEGERI == R)).map (·.DAERAH))
    refine ⟨hs, hn, fun x => ?_⟩
    rw [daerah_opts, hm x]
    simp only [List.mem_map, List.mem_filter, beq_iff_eq]
    constructor
    · rintro ⟨r, ⟨hr, hR⟩, hx⟩; exact ⟨r, hr, hR, hx⟩
    · rintro ⟨r, hr, hR, hx⟩; exact ⟨r, ⟨hr, hR⟩, hx⟩

/-- Closed instantiation of `C5_region_district_spec` on a concrete region
table. -/
theorem C5_region_district_spec_witness :
    ((negeri_list [⟨"Johor", "Muar"⟩, ⟨"Johor", "Kluang"⟩, ⟨"Perak", "Taiping"⟩]).Sorted
        (· ≤ ·) ∧
      (negeri_list [⟨"Johor", "Muar"⟩, ⟨"Johor", "Kluang"⟩, ⟨"Perak", "Taiping"⟩]).Nodup ∧
      ∀ x, x ∈ negeri_list [⟨"Johor", "Muar"⟩, ⟨"Johor", "Kluang"⟩, ⟨"Perak", "Taiping"⟩] ↔
        ∃ r ∈ [RegionRow.mk "Johor" "Muar", ⟨"Johor", "Kluang"⟩, ⟨"Perak", "Taiping"⟩],
          r.NEGERI = x) ∧
    ((daerah_opts [⟨"Johor", "Muar"⟩, ⟨"Johor", "Kluang"⟩, ⟨"Perak", "Taiping"⟩]
        "Johor").Sorted (· ≤ ·) ∧
      (daerah_opts [⟨"Johor", "Muar"⟩, ⟨"Johor", "Kluang"⟩, ⟨"Perak", "Taiping"⟩]
        "Johor").Nodup ∧
      ∀ x, x ∈ daerah_opts [⟨"Johor", "Muar"⟩, ⟨"Johor", "Kluang"⟩, ⟨"Perak", "Taiping"⟩]
          "Johor" ↔
        ∃ r ∈ [RegionRow.mk "Johor" "Muar", ⟨"Johor", "Kluang"⟩, ⟨"Perak", "Taiping"⟩],
          r.NEGERI = "Johor" ∧ r.DAERAH = x) :=
  C5_region_district_spec [⟨"Johor", "Muar"⟩, ⟨"Johor", "Kluang"⟩, ⟨"Perak", "Taiping"⟩] "Johor"

/-! ## Prediction-column search (`app.py` lines 112-114)

`next((c for c in result.columns if "low" in c.lower() and selected.lower() in
c.lower()), None)`: the first column (in column order) whose lowercased name
contains the token and the lowercased target name as substrings. -/

/-- Python's `sub in s` on strings: contiguous-substring containment. -/
def strContains (s sub : String) : Bool :=
  decide (sub.toList <:+: s.toList)

/-- Python's `s.lower()`: lowercase each character. -/
def pyLower (s : String) : String :=
  (s.toList.map Char.toLower).asString

/-- The per-column condition of the generator expression: the token and the
lowercased selected-target name both occur in the lowercased column name. -/
def colMatches (token selected : String) (c : String) : Bool :=
  strContains (pyLower c) token && strContains (pyLower c) (pyLower selected)

/-- `low_col` (line 112). -/
def low_col (selected : String) (resultCols : List String) : Option String :=
  resultCols.find? (colMatches "low" selected)

/-- `med_col` (line 113). -/
def med_col (selected : String) (resultCols : List String) : Option String :=
  resultCols.find? (colMatches "med" selected)

/-- `up_col` (line 114). -/
def up_col (selected : String) (resultCols : List String) : Option String :=
  resultCols.find? (colMatches "up" selected)

/-- Follows the spec's words, for comparison with the source's `find?`-based
search: `c` is the first column of `cols` whose lowercased name contains both
the token and the lowercased target name. -/
def SpecFirstMatchingCol (token selected : String) (cols : List String) (c : String) : Prop :=
  ∃ pre post, cols = pre ++ c :: post ∧
    (token.toList <:+: (pyLower c).toList ∧ (pyLower selected).toList <:+: (pyLower c).toList) ∧
    ∀ b ∈ pre,
      ¬(token.toList <:+: (pyLower b).toList ∧ (pyLower selected).toList <:+: (pyLower b).toList)

/-! ## Flag computation (`app.py` lines 116-131) -/

inductive Flag where
  | under
  | within
  | over
deriving DecidableEq

/-- The three-way classification of lines 122-130: `if actual < lb` → under,
`elif actual > ub` → over, `else` → within. -/
def computeFlag (lb ub actual : ℚ) : Flag :=
  if actual < lb then .under
  else if actual > ub then .over
  else .within

/-- The `explanation` string set in each branch (lines 124, 127, 130). -/
def explanation : Flag → String
  | .under => "🔴 Below Lower Bound → Possible UNDER-reporting"
  | .over => "🔴 Above Upper Bound → Possible OVER-reporting"
  | .within => "🟢 Within Model Range → No anomaly"

/-- The `flag_color` set in each branch (lines 123, 126, 129). -/
def flag_color : Flag → String
  | .within => "green"
  | _ => "red"

/-! ## Single-mode input form (`app.py` lines 62-105) -/

/-- Modelled: `st.sidebar.number_input(col, min_value=0.0, format="%.2f")`.
The widget never returns a value below `min_value`; the raw user entry is
clamped to the minimum. -/
def number_input_float (minValue : ℚ) (raw : ℚ) : ℚ :=
  max minValue raw

/-- Modelled: `st.sidebar.number_input(col, min_value=0, step=1)`.  With an
integer `min_value` and `step=1` the widget holds an integer, never below
`min_value`. -/
def number_input_int (minValue : ℤ) (raw : ℤ) : ℤ :=
  max minValue raw

/-- The `user_input` dict assembled by lines 62-97, in insertion order: the five
category selections, then one numeric entry per feature of the selected target
(`JUMLAH_PEKERJA` through the integer widget, every other through the float
widget).  `rawInt` and `rawFloat` are the raw user entries in the widgets. -/
def user_input_single (selected : String) (sektor subsektor msic negeri daerah : String)
    (rawInt : ℤ) (rawFloat : String → ℚ) : List (String × Value) :=
  [("SEKTOR", Value.str sektor), ("SUBSEKTOR", Value.str subsektor),
   ("MSIC_5D", Value.str msic), ("NEGERI", Value.str negeri), ("DAERAH", Value.str daerah)] ++
  (FEATURES selected).map (fun col =>
    if col = "JUMLAH_PEKERJA" then (col, Value.num ((number_input_int 0 rawInt : ℤ) : ℚ))
    else (col, Value.num (number_input_float 0 (rawFloat col))))

/-- `df_input = pd.DataFrame([user_input])` (line 105): a one-row table. -/
def df_input (user_input : List (String × Value)) : List (List (String × Value)) :=
  [user_input]

/-! ## Single-mode rendering (`app.py` lines 108-160) -/

/-- The elements rendered after a single-mode prediction, in order. -/
inductive RenderItem where
  | resultTable
  | info (text : String)
  | rangeChart (lb mb ub actual : ℚ) (color : String)
  | barChart (bars : List (String × Value))
deriving DecidableEq

/-- Python truthiness of `low_col` / `med_col` / `up_col` in the guard
`if low_col and med_col and up_col` (line 116): `None` and the empty string are
falsy, every other string truthy. -/
def pyTruthy : Option String → Bool
  | none => false
  | some s => decide (s ≠ "")

/-- The single-mode result rendering (lines 108-160): the result table; then,
only when all three bound columns were found, the flag text and the range
chart; then the bar chart of the numeric inputs used.  `cell c` models
`float(result[c].iloc[0])`, the first-row value of column `c` of the
prediction result. -/
def renderSingle (selected : String) (user_input : List (String × Value))
    (resultCols : List String) (cell : String → ℚ) : List RenderItem :=
  let lowc := low_col selected resultCols
  let medc := med_col selected resultCols
  let upc := up_col selected resultCols
  RenderItem.resultTable ::
  ((if pyTruthy lowc && pyTruthy medc && pyTruthy upc then
      let lb := cell (lowc.getD "")
      let ub := cell (upc.getD "")
      let actual := pyFloat (dictGet user_input selected (Value.num 0))
      [RenderItem.info (explanation (computeFlag lb ub actual)),
       RenderItem.rangeChart lb (cell (medc.getD "")) ub actual
         (flag_color (computeFlag lb ub actual))]
    else []) ++
   [RenderItem.barChart ((FEATURES selected).map
      (fun v => (v, dictGet user_input v (Value.num 0))))])

/-! ## Claim theorems for flagging, column search, and the input form -/

/-- C1: For every bound pair (low, up) with low ≤ up and every actual value,
the single-mode flag computation classifies actual < low as under, actual > up
as over, and every other case — including actual equal to low or to up — as
within (boundary-inclusive). -/
theorem C1_flag_spec (lb ub a : ℚ) (h : lb ≤ ub) :
    (computeFlag lb ub a = .under ↔ a < lb) ∧
    (computeFlag lb ub a = .over ↔ a > ub) ∧
    (computeFlag lb ub a = .within ↔ lb ≤ a ∧ a ≤ ub) ∧
    computeFlag lb ub lb = .within ∧ computeFlag lb ub ub = .within := by
  refine ⟨?_, ?_, ?_, ?_, ?_⟩ <;> unfold computeFlag
  · split_ifs with h1 h2 <;> simp_all
  · split_ifs with h1 h2 <;> simp_all
    linarith
  · split_ifs with h1 h2 <;> simp_all
  · split_ifs with h1 h2 <;> first | rfl | linarith
  · split_ifs with h1 h2 <;> first | rfl | linarith

/-- Closed instantiation of `C1_flag_spec` at bounds (10, 20) and actual 15. -/
theorem C1_flag_spec_witness :
    (10 : ℚ) ≤ 20 ∧
    ((computeFlag 10 20 15 = .under ↔ (15 : ℚ) < 10) ∧
     (computeFlag 10 20 15 = .over ↔ (15 : ℚ) > 20) ∧
     (computeFlag 10 20 15 = .within ↔ (10 : ℚ) ≤ 15 ∧ (15 : ℚ) ≤ 20) ∧
     computeFlag 10 20 10 = .within ∧ computeFlag 10 20 20 = .within) :=
  ⟨by norm_num, C1_flag_spec 10 20 15 (by norm_num)⟩

/-- Bridge between the Bool-valued source condition and the substring
property. -/
theorem colMatches_iff (token selected c : String) :
    colMatches token selected c = true ↔
      (token.toList <:+: (pyLower c).toList ∧
        (pyLower selected).toList <:+: (pyLower c).toList) := by
  simp [colMatches, strContains]

/-- `find?` returns `some c` exactly when `c` is the first element satisfying
the predicate, phrased through a propositional version of the predicate. -/
theorem find?_first (p : String → Bool) (P : String → Prop)
    (hp : ∀ s, p s = true ↔ P s) (cols : List String) (c : String) :
    cols.find? p = some c ↔
      ∃ pre post, cols = pre ++ c :: post ∧ P c ∧ ∀ b ∈ pre, ¬P b := by
  rw [List.find?_eq_some]
  constructor
  · rintro ⟨hc, pre, post, rfl, hpre⟩
    refine ⟨pre, post, rfl, (hp c).mp hc, fun b hb hPb => ?_⟩
    have hb' := hpre b hb
    rw [Bool.not_eq_true'] at hb'
    rw [← hp b] at hPb
    simp [hb'] at hPb
  · rintro ⟨pre, post, rfl, hPc, hpre⟩
    refine ⟨(hp c).mpr hPc, pre, post, rfl, fun b hb => ?_⟩
    rw [Bool.not_eq_true']
    by_contra hb'
    rw [Bool.not_eq_false] at hb'
    exact hpre b hb ((hp b).mp hb')

/-- C2: For every prediction-result column set and every selected target, the
low, median, and up bound columns used for flagging are located by
case-insensitive substring match: each is the first column whose lowercased
name contains both the respective token ("low", "med", or "up") and the
lowercased target name. -/
theorem C2_column_search_spec (selected : String) (cols : List String) (c : String) :
    (low_col selected cols = some c ↔ SpecFirstMatchingCol "low" selected cols c) ∧
    (med_col selected cols = some c ↔ SpecFirstMatchingCol "med" selected cols c) ∧
    (up_col selected cols = some c ↔ SpecFirstMatchingCol "up" selected cols c) := by
  refine ⟨?_, ?_, ?_⟩
  · rw [low_col, find?_first _ _ (colMatches_iff "low" selected) cols c]; rfl
  · rw [med_col, find?_first _ _ (colMatches_iff "med" selected) cols c]; rfl
  · rw [up_col, find?_first _ _ (colMatches_iff "up" selected) cols c]; rfl

/-- Closed instantiation of `C2_column_search_spec` on a concrete column
list. -/
theorem C2_column_search_spec_witness :
    (low_col "OUTPUT" ["ID", "OUTPUT_PRED_LOW", "OUTPUT_PRED_UP"] = some "OUTPUT_PRED_LOW" ↔
      SpecFirstMatchingCol "low" "OUTPUT" ["ID", "OUTPUT_PRED_LOW", "OUTPUT_PRED_UP"]
        "OUTPUT_PRED_LOW") ∧
    (med_col "OUTPUT" ["ID", "OUTPUT_PRED_LOW", "OUTPUT_PRED_UP"] = some "OUTPUT_PRED_LOW" ↔
      SpecFirstMatchingCol "med" "OUTPUT" ["ID", "OUTPUT_PRED_LOW", "OUTPUT_PRED_UP"]
        "OUTPUT_PRED_LOW") ∧
    (up_col "OUTPUT" ["ID", "OUTPUT_PRED_LOW", "OUTPUT_PRED_UP"] = some "OUTPUT_PRED_LOW" ↔
      SpecFirstMatchingCol "up" "OUTPUT" ["ID", "OUTPUT_PRED_LOW", "OUTPUT_PRED_UP"]
        "OUTPUT_PRED_LOW") :=
  C2_column_search_spec "OUTPUT" ["ID", "OUTPUT_PRED_LOW", "OUTPUT_PRED_UP"] "OUTPUT_PRED_LOW"

/-- C8: Every Input Record produced in single mode has all of its numeric
indicator fields ≥ 0; its JUMLAH_PEKERJA field is additionally a non-negative
integer; and exactly one record is produced per Run press
(`pd.DataFrame([user_input])` holds one row). -/
theorem C8_single_input_invariants (selected sektor subsektor msic negeri daerah : String)
    (rawInt : ℤ) (rawFloat : String → ℚ) :
    (∀ p ∈ user_input_single selected sektor subsektor msic negeri daerah rawInt rawFloat,
      ∀ q : ℚ, p.2 = Value.num q → 0 ≤ q) ∧
    (∀ q : ℚ,
      ("JUMLAH_PEKERJA", Value.num q) ∈
        user_input_single selected sektor subsektor msic negeri daerah rawInt rawFloat →
      ∃ n : ℕ, q = n) ∧
    (df_input (user_input_single selected sektor subsektor msic negeri daerah rawInt
      rawFloat)).length = 1 := by
  refine ⟨?_, ?_, rfl⟩
  · intro p hp q hq
    rw [user_input_single, List.mem_append] at hp
    rcases hp with hp | hp
    · simp only [List.mem_cons, List.not_mem_nil, or_false] at hp
      rcases hp with rfl | rfl | rfl | rfl | rfl <;> simp at hq
    · obtain ⟨col, -, hcol⟩ := List.mem_map.mp hp
      by_cases hJ : col = "JUMLAH_PEKERJA"
      · rw [if_pos hJ] at hcol
        rw [← hcol] at hq
        simp only [Value.num.injEq] at hq
        subst hq
        rw [number_input_int]
        positivity
      · rw [if_neg hJ] at hcol
        rw [← hcol] at hq
        simp only [Value.num.injEq] at hq
        subst hq
        rw [number_input_float]
        exact le_max_left _ _
  · intro q hq
    rw [user_input_single, List.mem_append] at hq
    rcases hq with hq | hq
    · simp at hq
    · obtain ⟨col, -, hcol⟩ := List.mem_map.mp hq
      by_cases hJ : col = "JUMLAH_PEKERJA"
      · rw [if_pos hJ, Prod.mk.injEq, Value.num.injEq] at hcol
        have h0 : 0 ≤ number_input_int 0 rawInt := le_max_left _ _
        obtain ⟨n, hn⟩ := Int.eq_ofNat_of_zero_le h0
        refine ⟨n, ?_⟩
        rw [← hcol.2, hn]
        exact_mod_cast rfl
      · rw [if_neg hJ, Prod.mk.injEq] at hcol
        exact absurd hcol.1 hJ

/-- Closed instantiation of `C8_single_input_invariants` at a concrete form
state. -/
theorem C8_single_input_invariants_witness :
    (∀ p ∈ user_input_single "OUTPUT" "A" "A1" "01111" "Johor" "Muar" (-3) (fun _ => -5),
      ∀ q : ℚ, p.2 = Value.num q → 0 ≤ q) ∧
    (∀ q : ℚ,
      ("JUMLAH_PEKERJA", Value.num q) ∈
        user_input_single "OUTPUT" "A" "A1" "01111" "Johor" "Muar" (-3) (fun _ => -5) →
      ∃ n : ℕ, q = n) ∧
    (df_input (user_input_single "OUTPUT" "A" "A1" "01111" "Johor" "Muar" (-3)
      (fun _ => -5))).length = 1 :=
  C8_single_input_invariants "OUTPUT" "A" "A1" "01111" "Johor" "Muar" (-3) (fun _ => -5)

/-- C9: Each of the five targets is a member of its own numeric feature list in
FEATURES, so `user_input.get(selected, 0)` finds the user-entered value for the
selected target and never falls back to the default 0. -/
theorem C9_actual_is_entered_value (selected : String) (hsel : selected ∈ TARGETS)
    (sektor subsektor msic negeri daerah : String) (rawInt : ℤ) (rawFloat : String → ℚ) :
    selected ∈ FEATURES selected ∧
    dictGet (user_input_single selected sektor subsektor msic negeri daerah rawInt rawFloat)
        selected (Value.num 0) =
      Value.num (if selected = "JUMLAH_PEKERJA" then ((number_input_int 0 rawInt : ℤ) : ℚ)
                 else number_input_float 0 (rawFloat selected)) := by
  simp only [TARGETS, List.mem_cons, List.not_mem_nil, or_false] at hsel
  rcases hsel with rfl | rfl | rfl | rfl | rfl <;> exact ⟨by decide, rfl⟩

/-- Closed instantiation of `C9_actual_is_entered_value` at target OUTPUT. -/
theorem C9_actual_is_entered_value_witness :
    "OUTPUT" ∈ TARGETS ∧
    ("OUTPUT" ∈ FEATURES "OUTPUT" ∧
     dictGet (user_input_single "OUTPUT" "A" "A1" "01111" "Johor" "Muar" 3 (fun _ => 7))
        "OUTPUT" (Value.num 0) =
      Value.num (if "OUTPUT" = "JUMLAH_PEKERJA" then ((number_input_int 0 3 : ℤ) : ℚ)
                 else number_input_float 0 ((fun _ => (7 : ℚ)) "OUTPUT"))) :=
  ⟨by decide,
   C9_actual_is_entered_value "OUTPUT" (by decide) "A" "A1" "01111" "Johor" "Muar" 3
     (fun _ => 7)⟩

/-- C10: In single mode, if any of the low, median, or up bound columns cannot
be located for the selected target, the flag text and the range chart are
skipped (no flag of any kind is shown), while the result table and the
numeric-inputs bar chart are still rendered. -/
theorem C10_missing_bound_column (selected : String) (user_input : List (String × Value))
    (resultCols : List String) (cell : String → ℚ)
    (h : low_col selected resultCols = none ∨ med_col selected resultCols = none ∨
         up_col selected resultCols = none) :
    renderSingle selected user_input resultCols cell =
      [RenderItem.resultTable,
       RenderItem.barChart ((FEATURES selected).map
         (fun v => (v, dictGet user_input v (Value.num 0))))] := by
  rcases h with h | h | h <;> simp [renderSingle, h, pyTruthy]

/-- Closed instantiation of `C10_missing_bound_column`: the result columns lack
an "up" column for target OUTPUT. -/
theorem C10_missing_bound_column_witness :
    (low_col "OUTPUT" ["OUTPUT_PRED_LOW", "OUTPUT_PRED_MED"] = none ∨
     med_col "OUTPUT" ["OUTPUT_PRED_LOW", "OUTPUT_PRED_MED"] = none ∨
     up_col "OUTPUT" ["OUTPUT_PRED_LOW", "OUTPUT_PRED_MED"] = none) ∧
    renderSingle "OUTPUT" [("OUTPUT", Value.num 5)] ["OUTPUT_PRED_LOW", "OUTPUT_PRED_MED"]
        (fun _ => 0) =
      [RenderItem.resultTable,
       RenderItem.barChart ((FEATURES "OUTPUT").map
         (fun v => (v, dictGet [("OUTPUT", Value.num 5)] v (Value.num 0))))] :=
  ⟨Or.inr (Or.inr (by decide)),
   C10_missing_bound_column "OUTPUT" [("OUTPUT", Value.num 5)]
     ["OUTPUT_PRED_LOW", "OUTPUT_PRED_MED"] (fun _ => 0) (Or.inr (Or.inr (by decide)))⟩

/-! ## Batch mode and the CSV round-trip (`app.py` lines 166-189)

A DataFrame, as uploaded or produced by the predictor, is a header plus rows of
cells.  The pandas CSV reader and writer are modelled for unquoted content:
`to_csv(index=False)` joins cells with commas and lines with newlines (with a
trailing newline); `read_csv` splits on newlines, skips blank lines
(`skip_blank_lines=True`), and splits each line on commas.  Cells holding a
delimiter, quote, or newline character — which pandas would quote on writing —
are outside this model and excluded by hypothesis where it matters. -/

structure Table where
  header : List String
  rows : List (List String)
deriving DecidableEq

/-- Split a character list at every occurrence of `sep` (the separator is
dropped; `n` separators yield `n + 1` chunks, as Python's `str.split` and the
CSV line/field structure do). -/
def splitOnChar (sep : Char) : List Char → List (List Char)
  | [] => [[]]
  | c :: rest =>
    if c = sep then [] :: splitOnChar sep rest
    else (c :: (splitOnChar sep rest).headD []) :: (splitOnChar sep rest).tail

/-- Join chunks with a separator character between consecutive chunks. -/
def sepJoin (sep : Char) : List (List Char) → List Char
  | [] => []
  | [l] => l
  | l :: l' :: ls => l ++ sep :: sepJoin sep (l' :: ls)

/-- One CSV line: the cells joined with commas. -/
def csvLine (fields : List String) : List Char :=
  sepJoin ',' (fields.map String.toList)

/-- Modelled: `DataFrame.to_csv(index=False)` (line 186) for unquoted content —
the header line, then one line per row, newline-separated with a trailing
newline. -/
def toCsv (t : Table) : String :=
  (sepJoin '\n' ((t.header :: t.rows).map csvLine) ++ ['\n']).asString

/-- Modelled: `pd.read_csv` (lines 173, and the re-parse of a download) for
unquoted content — split into lines, skip blank lines, first line is the
header, each remaining line is a row split on commas. -/
def parseCsv (content : String) : Table :=
  match (splitOnChar '\n' content.toList).filter (fun l => decide (l ≠ [])) with
  | [] => ⟨[], []⟩
  | h :: rest =>
    ⟨(splitOnChar ',' h).map List.asString,
     rest.map (fun r => (splitOnChar ',' r).map List.asString)⟩

/-- Batch mode (lines 172-179): parse the upload, pass it to the predictor.
Returns the pair (table passed to `predict_new`, its result). -/
def batch_mode (predict_new : Table → Table) (fileContent : String) : Table × Table :=
  let df_batch := parseCsv fileContent
  (df_batch, predict_new df_batch)

/-! ### Lemmas about `splitOnChar` and `sepJoin` -/

theorem splitOnChar_ne_nil (sep : Char) (l : List Char) : splitOnChar sep l ≠ [] := by
  induction l with
  | nil => simp [splitOnChar]
  | cons c rest ih =>
    rw [splitOnChar]
    split_ifs <;> simp

theorem splitOnChar_of_not_mem (sep : Char) (l : List Char) (h : sep ∉ l) :
    splitOnChar sep l = [l] := by
  induction l with
  | nil => rfl
  | cons c rest ih =>
    rw [List.mem_cons, not_or] at h
    rw [splitOnChar, if_neg (fun hc => h.1 hc.symm), ih h.2]
    rfl

theorem splitOnChar_append (sep : Char) (l t : List Char) (h : sep ∉ l) :
    splitOnChar sep (l ++ sep :: t) = l :: splitOnChar sep t := by
  induction l with
  | nil => rw [List.nil_append, splitOnChar, if_pos rfl]
  | cons c rest ih =>
    rw [List.mem_cons, not_or] at h
    rw [List.cons_append, splitOnChar, if_neg (fun hc => h.1 hc.symm), ih h.2]
    rfl

theorem mem_sepJoin (sep : Char) (L : List (List Char)) (c : Char) (hc : c ∈ sepJoin sep L) :
    c = sep ∨ ∃ l ∈ L, c ∈ l := by
  induction L with
  | nil => simp [sepJoin] at hc
  | cons l ls ih =>
    cases ls with
    | nil =>
      rw [sepJoin] at hc
      exact Or.inr ⟨l, List.mem_cons_self l [], hc⟩
    | cons l' ls' =>
      rw [sepJoin, List.mem_append, List.mem_cons] at hc
      rcases hc with hc | hc | hc
      · exact Or.inr ⟨l, List.mem_cons_self _ _, hc⟩
      · exact Or.inl hc
      · rcases ih hc with h | ⟨m, hm, hcm⟩
        · exact Or.inl h
        · exact Or.inr ⟨m, List.mem_cons_of_mem _ hm, hcm⟩

theorem sepJoin_append_nil (sep : Char) (L : List (List Char)) (hL : L ≠ []) :
    sepJoin sep (L ++ [[]]) = sepJoin sep L ++ [sep] := by
  induction L with
  | nil => exact absurd rfl hL
  | cons l ls ih =>
    cases ls with
    | nil => rfl
    | cons l' ls' =>
      calc sepJoin sep (l :: l' :: ls' ++ [[]])
          = l ++ sep :: sepJoin sep (l' :: ls' ++ [[]]) := by
            simp only [sepJoin, List.append_eq, List.cons_append]
        _ = l ++ sep :: (sepJoin sep (l' :: ls') ++ [sep]) := by rw [ih (by simp)]
        _ = sepJoin sep (l :: l' :: ls') ++ [sep] := by
            rw [show sepJoin sep (l :: l' :: ls') = l ++ sep :: sepJoin sep (l' :: ls')
              from rfl]
            simp

theorem splitOnChar_sepJoin (sep : Char) (L : List (List Char)) (hL : L ≠ [])
    (h : ∀ l ∈ L, sep ∉ l) : splitOnChar sep (sepJoin sep L) = L := by
  induction L with
  | nil => exact absurd rfl hL
  | cons l ls ih =>
    cases ls with
    | nil => exact splitOnChar_of_not_mem sep l (h l (List.mem_cons_self _ _))
    | cons l' ls' =>
      rw [show sepJoin sep (l :: l' :: ls') = l ++ sep :: sepJoin sep (l' :: ls') from rfl]
      rw [splitOnChar_append sep l _ (h l (List.mem_cons_self _ _)),
        ih (by simp) (fun m hm => h m (List.mem_cons_of_mem _ hm))]

/-- A newline never occurs in the CSV line of a row of newline-free cells. -/
theorem newline_not_mem_csvLine (fields : List String)
    (h : ∀ c ∈ fields, '\n' ∉ c.toList) : '\n' ∉ csvLine fields := by
  intro hmem
  rcases mem_sepJoin ',' _ _ hmem with hc | ⟨m, hm, hcm⟩
  · exact absurd hc (by decide)
  · obtain ⟨f, hf, rfl⟩ := List.mem_map.mp hm
    exact h f hf hcm

/-- Unfolding `parseCsv` once the line structure of the content is known. -/
theorem parseCsv_eq (content : String) (h : List Char) (rest : List (List Char))
    (hsplit : (splitOnChar '\n' content.toList).filter (fun l => decide (l ≠ [])) =
      h :: rest) :
    parseCsv content =
      ⟨(splitOnChar ',' h).map List.asString,
       rest.map (fun r => (splitOnChar ',' r).map List.asString)⟩ := by
  unfold parseCsv
  rw [hsplit]

/-! ## Claim theorems for batch mode -/

/-- C6: In batch mode the table passed to the predictor is exactly the parsed
upload: same header, same rows, nothing changed before the `predict_new`
call, and the result is the predictor's output on that table. -/
theorem C6_batch_passthrough (predict_new : Table → Table) (fileContent : String) :
    (batch_mode predict_new fileContent).1 = parseCsv fileContent ∧
    (batch_mode predict_new fileContent).1.header = (parseCsv fileContent).header ∧
    (batch_mode predict_new fileContent).1.rows = (parseCsv fileContent).rows ∧
    (batch_mode predict_new fileContent).2 = predict_new (parseCsv fileContent) :=
  ⟨rfl, rfl, rfl, rfl⟩

/-- Closed instantiation of `C6_batch_passthrough` on a concrete upload. -/
theorem C6_batch_passthrough_witness :
    (batch_mode (fun t => t) "A,B\n1,2\n").1 = parseCsv "A,B\n1,2\n" ∧
    (batch_mode (fun t => t) "A,B\n1,2\n").1.header = (parseCsv "A,B\n1,2\n").header ∧
    (batch_mode (fun t => t) "A,B\n1,2\n").1.rows = (parseCsv "A,B\n1,2\n").rows ∧
    (batch_mode (fun t => t) "A,B\n1,2\n").2 = (fun t => t) (parseCsv "A,B\n1,2\n") :=
  C6_batch_passthrough (fun t => t) "A,B\n1,2\n"

/-- C7 counterexample: a one-column result table whose single row holds the
empty string serializes to a blank data line (`"A\n\n"`), which the CSV reader
skips (`skip_blank_lines`): the re-parsed table has 0 rows while the in-memory
table has 1. -/
theorem C7_export_roundtrip_counterexample :
    (parseCsv (toCsv (Table.mk ["A"] [[""]]))).rows.length ≠
      (Table.mk ["A"] [[""]]).rows.length := by
  decide

/-- C7 (amended): for a result table none of whose rows serializes to a blank
CSV line (and whose cells are free of the delimiter and newline characters the
model leaves unquoted), the exported CSV re-parsed yields the same header —
hence the same column-name set — and the same number of rows. -/
theorem C7_export_roundtrip (t : Table)
    (hhead : csvLine t.header ≠ [])
    (hhcells : ∀ c ∈ t.header, ',' ∉ c.toList ∧ '\n' ∉ c.toList)
    (hrows : ∀ r ∈ t.rows, (∀ c ∈ r, '\n' ∉ c.toList) ∧ csvLine r ≠ []) :
    (parseCsv (toCsv t)).header = t.header ∧
    (parseCsv (toCsv t)).rows.length = t.rows.length := by
  have hlines_ne : ∀ l ∈ (t.header :: t.rows).map csvLine, l ≠ [] := by
    intro l hl
    obtain ⟨r, hr, rfl⟩ := List.mem_map.mp hl
    rcases List.mem_cons.mp hr with rfl | hr
    · exact hhead
    · exact (hrows r hr).2
  have hlines_nonl : ∀ l ∈ (t.header :: t.rows).map csvLine, '\n' ∉ l := by
    intro l hl
    obtain ⟨r, hr, rfl⟩ := List.mem_map.mp hl
    rcases List.mem_cons.mp hr with rfl | hr
    · exact newline_not_mem_csvLine _ (fun c hc => (hhcells c hc).2)
    · exact newline_not_mem_csvLine _ (fun c hc => (hrows r hr).1 c hc)
  have hcontent : (toCsv t).toList = sepJoin '\n' ((t.header :: t.rows).map csvLine ++ [[]]) := by
    rw [toCsv, List.toList_asString, sepJoin_append_nil '\n' _ (by simp)]
  have hsplit : (splitOnChar '\n' (toCsv t).toList).filter (fun l => decide (l ≠ [])) =
      csvLine t.header :: t.rows.map csvLine := by
    have hmem : ∀ l ∈ (t.header :: t.rows).map csvLine ++ [[]], '\n' ∉ l := by
      intro l hl
      rcases List.mem_append.mp hl with hl | hl
      · exact hlines_nonl l hl
      · simp only [List.mem_singleton] at hl
        subst hl
        simp
    rw [hcontent, splitOnChar_sepJoin '\n' _ (by simp) hmem, List.filter_append,
      List.filter_eq_self.mpr (fun l hl => by simpa using hlines_ne l hl)]
    simp
  have hheader_ne : t.header ≠ [] := by
    intro h
    exact hhead (by rw [h]; rfl)
  rw [parseCsv_eq (toCsv t) (csvLine t.header) (t.rows.map csvLine) hsplit]
  constructor
  · show (splitOnChar ',' (csvLine t.header)).map List.asString = t.header
    have hcomma : ∀ l ∈ t.header.map String.toList, ',' ∉ l := by
      intro l hl
      obtain ⟨c, hc, rfl⟩ := List.mem_map.mp hl
      exact (hhcells c hc).1
    rw [csvLine, splitOnChar_sepJoin ',' _ (by simpa using hheader_ne) hcomma, List.map_map]
    have hid : List.asString ∘ String.toList = id := funext String.asString_toList
    rw [hid, List.map_id]
  · simp

/-- Closed instantiation of `C7_export_roundtrip` on a concrete two-row result
table. -/
theorem C7_export_roundtrip_witness :
    csvLine (Table.mk ["A", "B"] [["1", "2"], ["3", "4"]]).header ≠ [] ∧
    (∀ c ∈ (Table.mk ["A", "B"] [["1", "2"], ["3", "4"]]).header,
      ',' ∉ c.toList ∧ '\n' ∉ c.toList) ∧
    (∀ r ∈ (Table.mk ["A", "B"] [["1", "2"], ["3", "4"]]).rows,
      (∀ c ∈ r, '\n' ∉ c.toList) ∧ csvLine r ≠ []) ∧
    ((parseCsv (toCsv (Table.mk ["A", "B"] [["1", "2"], ["3", "4"]]))).header =
        (Table.mk ["A", "B"] [["1", "2"], ["3", "4"]]).header ∧
      (parseCsv (toCsv (Table.mk ["A", "B"] [["1", "2"], ["3", "4"]]))).rows.length =
        (Table.mk ["A", "B"] [["1", "2"], ["3", "4"]]).rows.length) :=
  ⟨by decide, by decide, by decide,
   C7_export_roundtrip (Table.mk ["A", "B"] [["1", "2"], ["3", "4"]]) (by decide) (by decide)
     (by decide)⟩

end QCApp
